import Mathlib

/-!
Shallow embedding of `src/app2.py` (優秀台表作成ツール): the dataset loader
(encoding fallback + schema access) and the report assembler
(`get_machine_rows` and the build loop constructing `master_rows` with its
role index lists), together with theorems settling the specification claims.
-/

namespace App2

/-- One row of the source table, by source column:
`機種名（データサイト表記）` (model), `台番` (raw cell text), `G数`, `BB`, `RB`,
`ART`, `差枚`. -/
structure Record where
  model : String
  dai   : String
  g     : Int
  bb    : Int
  rb    : Int
  art   : Int
  sa    : Int
deriving Repr, DecidableEq

/-- The decoded dataframe: whether the model-identifier column
`機種名（データサイト表記）` is present among `df.columns`, and the rows. -/
structure Table where
  hasModelCol : Bool
  recs : List Record
deriving Repr, DecidableEq

/-- A raw cell holds a numeral (pandas gives the `台番` column an integer dtype
iff every cell of the column does). -/
def isNumeral (s : String) : Bool :=
  !s.isEmpty && s.data.all (fun c => c.isDigit)

/-- Numeric value of a numeral cell. -/
def daiNat (s : String) : Nat :=
  s.data.foldl (fun n c => n * 10 + (c.toNat - 48)) 0

/-- Whether pandas infers an integer dtype for the `台番` column of the table:
all cells across the whole column are numerals. -/
def numericCol (df : Table) : Bool :=
  df.recs.all (fun r => isNumeral r.dai)

/-- `str(row['台番'])`: under an integer dtype the parsed value is printed,
otherwise the raw text is kept. -/
def daiStr (numeric : Bool) (s : String) : String :=
  if numeric then Nat.repr (daiNat s) else s

/-- Digits (least-significant first) grouped in threes, as Python's `","`
format option groups them. -/
def chunk3 : List Char → List (List Char)
  | [] => []
  | [a] => [[a]]
  | [a, b] => [[a, b]]
  | a :: b :: c :: rest => [a, b, c] :: chunk3 rest

/-- Python `format(n, ",")` for a natural number: thousands separators every
three digits. -/
def commaNat (n : Nat) : String :=
  String.mk ((((chunk3 (Nat.repr n).data.reverse)).intersperse [',']).flatten.reverse)

/-- Python `f"{n:,}"` for an integer. -/
def commaInt (n : Int) : String :=
  if n < 0 then "-" ++ commaNat n.natAbs else commaNat n.natAbs

/-- One formatted data row (lines 62–66 of `app2.py`):
`[str(台番), display_name, f"{G数:,}G", str(BB), str(RB), str(ART), f"+{差枚:,}枚"]`. -/
def formatRow (numeric : Bool) (display_name : String) (r : Record) : List String :=
  [daiStr numeric r.dai, display_name, commaInt r.g ++ "G",
   toString r.bb, toString r.rb, toString r.art,
   "+" ++ commaInt r.sa ++ "枚"]

/-- `[""] * 7`. -/
def emptyRow : List String := ["", "", "", "", "", "", ""]

/-- The fixed column-header row (line 60 of `app2.py`). -/
def headerRow : List String := ["台番", "機種名", "ゲーム数", "BIG", "REG", "AT", "差枚数"]

/-- Insert an element into a list sorted by `le`, before the first element it
`le`-precedes. -/
def insertLe {α : Type} (le : α → α → Bool) (a : α) : List α → List α
  | [] => [a]
  | b :: l => if le a b then a :: b :: l else b :: insertLe le a l

/-- Sort by repeated insertion. -/
def sortBy {α : Type} (le : α → α → Bool) : List α → List α
  | [] => []
  | a :: l => insertLe le a (sortBy le l)

/-- Python's `<` on strings, on the underlying character lists: lexicographic
by code point. -/
def strLtAux : List Char → List Char → Bool
  | [], [] => false
  | [], _ :: _ => true
  | _ :: _, [] => false
  | a :: as, b :: bs =>
    if a.toNat < b.toNat then true
    else if b.toNat < a.toNat then false
    else strLtAux as bs

/-- Python's `<` on strings. -/
def strLt (a b : String) : Bool := strLtAux a.data b.data

/-- Non-strict comparison of two rows by the `台番` cell under the column's
dtype: numeric when the dtype is integer, else Python's `<=` on text. -/
def daiLe (numeric : Bool) (a b : Record) : Bool :=
  match numeric with
  | true => decide (daiNat a.dai ≤ daiNat b.dai)
  | false => strLt a.dai b.dai || a.dai == b.dai

/-- `sort_values('台番')`: the rows sorted by the unit-number column under the
column's dtype. The source's default quicksort guarantees only a sorted
permutation — the relative order of rows with equal unit numbers is
implementation defined — so this executable model picks one definite
refinement (insertion by the key alone) and no theorem relies on how it
orders ties. -/
def sortValues (numeric : Bool) (l : List Record) : List Record :=
  sortBy (daiLe numeric) l

/-- `m_df[m_df['差枚'] >= threshold]` applied to
`df[df[target_col] == csv_name]`: the records a group keeps, in table order. -/
def filteredRecs (df : Table) (csv_name : String) (threshold : Int) : List Record :=
  (df.recs.filter (fun r => r.model == csv_name)).filter (fun r => threshold ≤ r.sa)

/-- The kept records of a group after `sort_values('台番')` (`e_df`). -/
def selectedRecs (df : Table) (csv_name : String) (threshold : Int) : List Record :=
  sortValues (numericCol df) (filteredRecs df csv_name threshold)

/-- Lines 49–67 of `app2.py`: `get_machine_rows` returns `None` when the model
column is absent or no record qualifies, else the block rows: one blank
title-band row, the header row, one formatted row per kept record. -/
def get_machine_rows (df : Table) (csv_name display_name : String) (threshold : Int) :
    Option (List (List String)) :=
  if !df.hasModelCol then none
  else
    let e_df := selectedRecs df csv_name threshold
    if e_df.isEmpty then none
    else some (emptyRow :: headerRow :: e_df.map (formatRow (numericCol df) display_name))

/-- One `(CSV機種名, 表示略称, 枚数条件)` configuration tuple. -/
structure GroupSpec where
  csv_n : String
  disp_n : String
  thresh : Int
deriving Repr, DecidableEq

/-- The mutable accumulators of the build loop (lines 101–105 of `app2.py`). -/
structure BuildState where
  master_rows : List (List String)
  headline_indices : List Nat
  header_indices : List Nat
  separator_indices : List Nat
  machine_info : List String
deriving Repr, DecidableEq

/-- The body of the build loop (lines 111–121 of `app2.py`) for the group at
position `i`. -/
def buildStep (df : Table) (st : BuildState) (ig : Nat × GroupSpec) : BuildState :=
  match get_machine_rows df ig.2.csv_n ig.2.disp_n ig.2.thresh with
  | none => st
  | some res =>
    let h_idx := st.master_rows.length
    let st1 : BuildState :=
      { master_rows := st.master_rows ++ res
        headline_indices := st.headline_indices ++ [h_idx]
        header_indices := st.header_indices ++ [h_idx + 1]
        separator_indices := st.separator_indices
        machine_info := st.machine_info ++ [ig.2.disp_n] }
    if ig.1 < 2 then
      { st1 with
        separator_indices := st1.separator_indices ++ [st1.master_rows.length]
        master_rows := st1.master_rows ++ [emptyRow] }
    else st1

/-- State before the loop: `master_rows = [[""] * 7]` (the row at
`first_sep_idx`), all index lists empty. -/
def initState : BuildState :=
  { master_rows := [emptyRow], headline_indices := [], header_indices := [],
    separator_indices := [], machine_info := [] }

/-- `first_sep_idx = 0` (line 109 of `app2.py`). -/
def first_sep_idx : Nat := 0

/-- `for i, (csv_n, disp_n, thresh) in enumerate(targets): ...` starting at
position `i`. -/
def buildLoop (df : Table) (i : Nat) (targets : List GroupSpec) (st : BuildState) :
    BuildState :=
  match targets with
  | [] => st
  | g :: rest => buildLoop df (i + 1) rest (buildStep df st (i, g))

/-- Lines 101–121 of `app2.py`: the whole assembly of `master_rows` and the
role index lists. -/
def master_build (df : Table) (targets : List GroupSpec) : BuildState :=
  buildLoop df 0 targets initState

/-- The guard `if len(master_rows) > 1:` (line 123) deciding whether the
rendering collaborator runs. -/
def renderInvoked (st : BuildState) : Bool :=
  decide (1 < st.master_rows.length)

/-- How many of the groups yield a block. -/
def yieldCount (df : Table) (targets : List GroupSpec) : Nat :=
  (targets.filter (fun g => (get_machine_rows df g.csv_n g.disp_n g.thresh).isSome)).length

/-- The two encodings tried by the loader (lines 79 and 82 of `app2.py`). -/
inductive Encoding
  | cp932
  | utf8
deriving Repr, DecidableEq

/-- An uploaded byte stream. -/
def ByteStream : Type := List Nat

/-- The loader's failure modes: the byte stream parses under neither encoding,
or the parsed table lacks the model-identifier column. -/
inductive LoadError
  | DecodeError
  | SchemaError
deriving Repr, DecidableEq

/-- Values not yet seen, in first-seen order, given those seen so far. -/
def uniqueFirstSeenAux (seen : List String) : List String → List String
  | [] => []
  | x :: xs =>
    if x ∈ seen then uniqueFirstSeenAux seen xs
    else x :: uniqueFirstSeenAux (seen ++ [x]) xs

/-- Distinct values in first-seen order, as `Series.unique()` yields them. -/
def uniqueFirstSeen (l : List String) : List String :=
  uniqueFirstSeenAux [] l

/-- Line 84 of `app2.py`: `df['機種名（データサイト表記）'].unique().tolist()`. -/
def allMachines (df : Table) : List String :=
  uniqueFirstSeen (df.recs.map (fun r => r.model))

/-- Accessing the model column after a successful decode: `SchemaError` when
it is absent, else the table and its distinct machine list. -/
def checkSchema (df : Table) : Except LoadError (Table × List String) :=
  if df.hasModelCol then Except.ok (df, allMachines df)
  else Except.error LoadError.SchemaError

/-- Lines 77–84 of `app2.py`: try `read_csv` with cp932; on failure rewind and
retry with utf-8; a second failure is terminal; then access the model column. -/
def load (read_csv : Encoding → ByteStream → Option Table) (bs : ByteStream) :
    Except LoadError (Table × List String) :=
  match read_csv Encoding.cp932 bs with
  | some df => checkSchema df
  | none =>
    match read_csv Encoding.utf8 bs with
    | some df => checkSchema df
    | none => Except.error LoadError.DecodeError

/-! ### Sorting lemmas -/

theorem insertLe_perm {α : Type} (le : α → α → Bool) (a : α) (l : List α) :
    List.Perm (insertLe le a l) (a :: l) := by
  induction l with
  | nil => simp [insertLe]
  | cons b t ih =>
    cases h : le a b with
    | true => simp [insertLe, h]
    | false =>
      simp only [insertLe, h, Bool.false_eq_true, if_false]
      exact (ih.cons b).trans (List.Perm.swap a b t)

theorem sortBy_perm {α : Type} (le : α → α → Bool) (l : List α) :
    List.Perm (sortBy le l) l := by
  induction l with
  | nil => simp [sortBy]
  | cons a t ih => exact (insertLe_perm le a (sortBy le t)).trans (ih.cons a)

theorem pairwise_insertLe {α : Type} (le : α → α → Bool)
    (htrans : ∀ a b c, le a b = true → le b c = true → le a c = true)
    (htotal : ∀ a b, le a b = true ∨ le b a = true)
    (a : α) (l : List α) (h : l.Pairwise (fun x y => le x y = true)) :
    (insertLe le a l).Pairwise (fun x y => le x y = true) := by
  induction l with
  | nil => simp [insertLe]
  | cons b t ih =>
    obtain ⟨hb, ht⟩ := List.pairwise_cons.mp h
    cases hab : le a b with
    | true =>
      simp only [insertLe, hab, if_true]
      refine List.Pairwise.cons ?_ h
      intro x hx
      rcases List.mem_cons.mp hx with rfl | hx'
      · exact hab
      · exact htrans a b x hab (hb x hx')
    | false =>
      simp only [insertLe, hab, Bool.false_eq_true, if_false]
      refine List.Pairwise.cons ?_ (ih ht)
      intro x hx
      rcases List.mem_cons.mp ((insertLe_perm le a t).mem_iff.mp hx) with rfl | hx'
      · rcases htotal x b with h1 | h2
        · rw [hab] at h1; exact absurd h1 (by simp)
        · exact h2
      · exact hb x hx'

theorem pairwise_sortBy {α : Type} (le : α → α → Bool)
    (htrans : ∀ a b c, le a b = true → le b c = true → le a c = true)
    (htotal : ∀ a b, le a b = true ∨ le b a = true) (l : List α) :
    (sortBy le l).Pairwise (fun x y => le x y = true) := by
  induction l with
  | nil => simp [sortBy]
  | cons a t ih => exact pairwise_insertLe le htrans htotal a _ ih

theorem strLtAux_trans :
    ∀ as bs cs : List Char, strLtAux as bs = true → strLtAux bs cs = true →
      strLtAux as cs = true := by
  intro as
  induction as with
  | nil =>
    intro bs cs h1 h2
    cases bs with
    | nil => simp [strLtAux] at h1
    | cons b bs' =>
      cases cs with
      | nil => simp [strLtAux] at h2
      | cons c cs' => simp [strLtAux]
  | cons a as' ih =>
    intro bs cs h1 h2
    cases bs with
    | nil => simp [strLtAux] at h1
    | cons b bs' =>
      cases cs with
      | nil => simp [strLtAux] at h2
      | cons c cs' =>
        simp only [strLtAux] at h1 h2 ⊢
        by_cases hab : a.toNat < b.toNat
        · by_cases hbc : b.toNat < c.toNat
          · simp [Nat.lt_trans hab hbc]
          · by_cases hcb : c.toNat < b.toNat
            · simp [hbc, hcb] at h2
            · have hac : a.toNat < c.toNat := by omega
              simp [hac]
        · by_cases hba : b.toNat < a.toNat
          · simp [hab, hba] at h1
          · by_cases hbc : b.toNat < c.toNat
            · have hac : a.toNat < c.toNat := by omega
              simp [hac]
            · by_cases hcb : c.toNat < b.toNat
              · simp [hbc, hcb] at h2
              · have h1' : strLtAux as' bs' = true := by simpa [hab, hba] using h1
                have h2' : strLtAux bs' cs' = true := by simpa [hbc, hcb] using h2
                have hac : ¬ a.toNat < c.toNat := by omega
                have hca : ¬ c.toNat < a.toNat := by omega
                simp [hac, hca, ih bs' cs' h1' h2']

theorem strLtAux_conn :
    ∀ as bs : List Char, strLtAux as bs = false → strLtAux bs as = false → as = bs := by
  intro as
  induction as with
  | nil =>
    intro bs h1 _
    cases bs with
    | nil => rfl
    | cons b bs' => simp [strLtAux] at h1
  | cons a as' ih =>
    intro bs h1 h2
    cases bs with
    | nil => simp [strLtAux] at h2
    | cons b bs' =>
      simp only [strLtAux] at h1 h2
      by_cases hab : a.toNat < b.toNat
      · simp [hab] at h1
      · by_cases hba : b.toNat < a.toNat
        · simp [hab, hba] at h2  -- careful with order of conditions
        · have h1' : strLtAux as' bs' = false := by simpa [hab, hba] using h1
          have h2' : strLtAux bs' as' = false := by simpa [hab, hba] using h2
          have hc : a = b := by
            have : a.toNat = b.toNat := by omega
            ext
            exact this
          rw [hc, ih bs' h1' h2']

theorem strLt_trans (a b c : String) (h1 : strLt a b = true) (h2 : strLt b c = true) :
    strLt a c = true :=
  strLtAux_trans a.data b.data c.data h1 h2

theorem strLt_conn (a b : String) (h1 : strLt a b = false) (h2 : strLt b a = false) :
    a = b :=
  String.ext (strLtAux_conn a.data b.data h1 h2)

theorem daiLe_trans (numeric : Bool) (a b c : Record)
    (h1 : daiLe numeric a b = true) (h2 : daiLe numeric b c = true) :
    daiLe numeric a c = true := by
  cases numeric with
  | true =>
    simp only [daiLe, decide_eq_true_eq] at h1 h2 ⊢
    omega
  | false =>
    simp only [daiLe, Bool.or_eq_true, beq_iff_eq] at h1 h2 ⊢
    rcases h1 with h1 | h1 <;> rcases h2 with h2 | h2
    · exact Or.inl (strLt_trans _ _ _ h1 h2)
    · exact Or.inl (h2 ▸ h1)
    · exact Or.inl (h1.symm ▸ h2)
    · exact Or.inr (h1.trans h2)

theorem daiLe_total (numeric : Bool) (a b : Record) :
    daiLe numeric a b = true ∨ daiLe numeric b a = true := by
  cases numeric with
  | true =>
    simp only [daiLe, decide_eq_true_eq]
    omega
  | false =>
    simp only [daiLe, Bool.or_eq_true, beq_iff_eq]
    by_cases h1 : strLt a.dai b.dai = true
    · exact Or.inl (Or.inl h1)
    · by_cases h2 : strLt b.dai a.dai = true
      · exact Or.inr (Or.inl h2)
      · exact Or.inl (Or.inr
          (strLt_conn _ _ (Bool.not_eq_true _ ▸ h1) (Bool.not_eq_true _ ▸ h2)))

theorem pairwise_sortValues (numeric : Bool) (l : List Record) :
    (sortValues numeric l).Pairwise (fun a b => daiLe numeric a b = true) :=
  pairwise_sortBy _ (daiLe_trans numeric) (daiLe_total numeric) l

theorem sortValues_perm (numeric : Bool) (l : List Record) :
    List.Perm (sortValues numeric l) l :=
  sortBy_perm _ l

theorem mem_sortValues {numeric : Bool} {l : List Record} {r : Record} :
    r ∈ sortValues numeric l ↔ r ∈ l :=
  (sortValues_perm numeric l).mem_iff

theorem sortValues_length (numeric : Bool) (l : List Record) :
    (sortValues numeric l).length = l.length :=
  (sortValues_perm numeric l).length_eq

theorem mem_selectedRecs {df : Table} {csv : String} {thr : Int} {r : Record} :
    r ∈ selectedRecs df csv thr ↔ (r ∈ df.recs ∧ r.model = csv ∧ thr ≤ r.sa) := by
  simp only [selectedRecs, mem_sortValues, filteredRecs, List.mem_filter,
    beq_iff_eq, decide_eq_true_eq, and_assoc]

theorem get_machine_rows_eq_some {df : Table} {csv disp : String} {thr : Int}
    (hcol : df.hasModelCol = true) (hne : selectedRecs df csv thr ≠ []) :
    get_machine_rows df csv disp thr =
      some (emptyRow :: headerRow ::
        (selectedRecs df csv thr).map (formatRow (numericCol df) disp)) := by
  simp [get_machine_rows, hcol, List.isEmpty_iff, hne]

theorem get_machine_rows_some_shape {df : Table} {csv disp : String} {thr : Int}
    {rows : List (List String)}
    (h : get_machine_rows df csv disp thr = some rows) :
    rows = emptyRow :: headerRow ::
      (selectedRecs df csv thr).map (formatRow (numericCol df) disp) := by
  by_cases hcol : df.hasModelCol = true
  · by_cases hne : selectedRecs df csv thr = []
    · rw [get_machine_rows] at h
      simp [hcol, hne, List.isEmpty_iff] at h
    · rw [get_machine_rows_eq_some hcol hne] at h
      exact (Option.some.injEq _ _ ▸ h).symm
  · rw [get_machine_rows] at h
    simp [Bool.not_eq_true _ ▸ hcol] at h

/-! ### Build loop lemmas -/

theorem buildStep_none {df : Table} {st : BuildState} {i : Nat} {g : GroupSpec}
    (h : get_machine_rows df g.csv_n g.disp_n g.thresh = none) :
    buildStep df st (i, g) = st := by
  simp [buildStep, h]

theorem buildStep_some_sep {df : Table} {st : BuildState} {i : Nat} {g : GroupSpec}
    {res : List (List String)}
    (h : get_machine_rows df g.csv_n g.disp_n g.thresh = some res) (hi : i < 2) :
    buildStep df st (i, g) =
      { master_rows := (st.master_rows ++ res) ++ [emptyRow]
        headline_indices := st.headline_indices ++ [st.master_rows.length]
        header_indices := st.header_indices ++ [st.master_rows.length + 1]
        separator_indices := st.separator_indices ++ [(st.master_rows ++ res).length]
        machine_info := st.machine_info ++ [g.disp_n] } := by
  simp [buildStep, h, hi]

theorem buildStep_some_nosep {df : Table} {st : BuildState} {i : Nat} {g : GroupSpec}
    {res : List (List String)}
    (h : get_machine_rows df g.csv_n g.disp_n g.thresh = some res) (hi : ¬ i < 2) :
    buildStep df st (i, g) =
      { master_rows := st.master_rows ++ res
        headline_indices := st.headline_indices ++ [st.master_rows.length]
        header_indices := st.header_indices ++ [st.master_rows.length + 1]
        separator_indices := st.separator_indices
        machine_info := st.machine_info ++ [g.disp_n] } := by
  simp [buildStep, h, hi]

theorem buildLoop_none {df : Table} :
    ∀ (ts : List GroupSpec) (i : Nat) (st : BuildState),
    (∀ g ∈ ts, get_machine_rows df g.csv_n g.disp_n g.thresh = none) →
    buildLoop df i ts st = st := by
  intro ts
  induction ts with
  | nil => intro i st _; rfl
  | cons g rest ih =>
    intro i st h
    simp only [buildLoop]
    rw [buildStep_none (h g (by simp))]
    exact ih (i + 1) st (fun g' hg' => h g' (by simp [hg']))

/-- The invariant the build loop maintains: the grid keeps its initial blank
row at index 0, and every recorded role index is at least 1. -/
def invState (st : BuildState) : Prop :=
  (∃ rest, st.master_rows = emptyRow :: rest) ∧
  (∀ i ∈ st.headline_indices, 1 ≤ i) ∧
  (∀ i ∈ st.header_indices, 1 ≤ i) ∧
  (∀ i ∈ st.separator_indices, 1 ≤ i)

theorem invState_buildStep {df : Table} {st : BuildState} {ig : Nat × GroupSpec}
    (h : invState st) : invState (buildStep df st ig) := by
  obtain ⟨⟨rest, hrest⟩, h1, h2, h3⟩ := h
  have hlen : 1 ≤ st.master_rows.length := by rw [hrest]; simp
  obtain ⟨i, g⟩ := ig
  cases hres : get_machine_rows df g.csv_n g.disp_n g.thresh with
  | none => rw [buildStep_none hres]; exact ⟨⟨rest, hrest⟩, h1, h2, h3⟩
  | some res =>
    by_cases hi : i < 2
    · rw [buildStep_some_sep hres hi]
      refine ⟨⟨rest ++ res ++ [emptyRow], by rw [hrest]; simp⟩, ?_, ?_, ?_⟩
      · intro j hj
        rcases List.mem_append.mp hj with hj' | hj'
        · exact h1 j hj'
        · rw [List.mem_singleton.mp hj']; exact hlen
      · intro j hj
        rcases List.mem_append.mp hj with hj' | hj'
        · exact h2 j hj'
        · rw [List.mem_singleton.mp hj']; omega
      · intro j hj
        rcases List.mem_append.mp hj with hj' | hj'
        · exact h3 j hj'
        · rw [List.mem_singleton.mp hj']
          rw [List.length_append]
          omega
    · rw [buildStep_some_nosep hres hi]
      refine ⟨⟨rest ++ res, by rw [hrest]; simp⟩, ?_, ?_, h3⟩
      · intro j hj
        rcases List.mem_append.mp hj with hj' | hj'
        · exact h1 j hj'
        · rw [List.mem_singleton.mp hj']; exact hlen
      · intro j hj
        rcases List.mem_append.mp hj with hj' | hj'
        · exact h2 j hj'
        · rw [List.mem_singleton.mp hj']; omega

theorem invState_buildLoop {df : Table} :
    ∀ (ts : List GroupSpec) (i : Nat) (st : BuildState),
    invState st → invState (buildLoop df i ts st) := by
  intro ts
  induction ts with
  | nil => intro i st h; exact h
  | cons g rest ih => intro i st h; exact ih (i + 1) _ (invState_buildStep h)

theorem invState_init : invState initState :=
  ⟨⟨[], rfl⟩, by simp [initState], by simp [initState], by simp [initState]⟩

theorem invState_master_build (df : Table) (targets : List GroupSpec) :
    invState (master_build df targets) :=
  invState_buildLoop targets 0 initState invState_init

/-! ### Claims -/

/-- The comparison-mode flag as the spec states it: numeric iff every unit
value across the group (the kept records) is a numeral. -/
def groupNumeric (df : Table) (csv_name : String) (threshold : Int) : Bool :=
  (filteredRecs df csv_name threshold).all (fun r => isNumeral r.dai)

/-- The comparison-mode clause of the spec's sorting claim instantiated at one
group: the block's data rows are non-decreasing by unit number, compared
numerically when every unit value across the group is numeric and as text
otherwise. (The claim's remaining clause, tie order, plays no part in the
counterexample, which has no equal unit numbers.) -/
abbrev claimC5At (df : Table) (csv_name : String) (threshold : Int) : Prop :=
  (selectedRecs df csv_name threshold).Pairwise (fun a b =>
    (groupNumeric df csv_name threshold = true →
      (daiNat a.dai < daiNat b.dai ∨ daiNat a.dai = daiNat b.dai)) ∧
    (groupNumeric df csv_name threshold = false →
      (strLt a.dai b.dai = true ∨ a.dai = b.dai)))

/-- A table whose unit-number column holds `2`, `10` (model `A`) and the
non-numeral `X1` (model `B`): the column dtype is textual although group `A`'s
own unit values are all numeric. -/
def dfC5 : Table :=
  ⟨true, [⟨"A", "2", 100, 1, 1, 1, 600⟩, ⟨"A", "10", 100, 1, 1, 1, 600⟩,
          ⟨"B", "X1", 100, 1, 1, 1, 600⟩]⟩

/-- C5 (counterexample): the comparison mode is not chosen per group. For
group `A` every unit value is numeric, so the claim demands numeric order
(2 before 10), but the code sorts by the whole column's textual dtype and
yields `"10"` before `"2"`. -/
theorem c5_sort_mode_counterexample : ¬ claimC5At dfC5 "A" 500 := by decide

/-- C5 (amended): the comparison mode is decided by the whole column's dtype
(numeric iff every unit value of the table is a numeral), not per group; under
that mode the block's rows are sorted non-decreasingly by unit number and are
exactly a permutation of the kept records. The code guarantees nothing about
the relative order of rows with equal unit numbers (its sort is pandas'
default quicksort, which is not a documented stable sort), so no tie-order
property is claimed. -/
theorem c5_sorted_amended (df : Table) (csv_name : String) (threshold : Int) :
    ((selectedRecs df csv_name threshold).Pairwise
        (fun a b => daiLe (numericCol df) a b = true)) ∧
    List.Perm (selectedRecs df csv_name threshold)
        (filteredRecs df csv_name threshold) :=
  ⟨pairwise_sortValues _ _, sortValues_perm _ _⟩

/-- Table for the C1 witness: a record of model `A` sitting exactly on the
threshold boundary, next to a lower-case `a` model that must not match. -/
def dfC1w : Table :=
  ⟨true, [⟨"A", "1", 10, 1, 1, 1, 500⟩, ⟨"a", "2", 10, 1, 1, 1, 9999⟩]⟩

/-- The boundary record of `dfC1w`. -/
def recC1w : Record := ⟨"A", "1", 10, 1, 1, 1, 500⟩

/-- C1: for a table with the model column, a record of the table appears among
a group's kept records iff its model identifier equals the group's exactly and
its payout differential is at least the threshold (boundary inclusive); and
whenever the group yields a block, its rows are the blank title-band row, the
header row, and exactly the formatted kept records. -/
theorem c1_block_membership (df : Table) (csv_name disp : String) (threshold : Int)
    (r : Record) (hcol : df.hasModelCol = true) (hr : r ∈ df.recs) :
    (r ∈ selectedRecs df csv_name threshold ↔
      (r.model = csv_name ∧ threshold ≤ r.sa)) ∧
    (selectedRecs df csv_name threshold ≠ [] →
      get_machine_rows df csv_name disp threshold =
        some (emptyRow :: headerRow ::
          (selectedRecs df csv_name threshold).map (formatRow (numericCol df) disp))) := by
  constructor
  · rw [mem_selectedRecs]
    simp [hr]
  · intro hne
    exact get_machine_rows_eq_some hcol hne

/-- C1 witness: the boundary record (differential = threshold = 500) is
included, and the block has the stated shape. -/
theorem c1_block_membership_witness :
    dfC1w.hasModelCol = true ∧ recC1w ∈ dfC1w.recs ∧
    ((recC1w ∈ selectedRecs dfC1w "A" 500 ↔
        (recC1w.model = "A" ∧ (500 : Int) ≤ recC1w.sa)) ∧
     (selectedRecs dfC1w "A" 500 ≠ [] →
       get_machine_rows dfC1w "A" "Alpha" 500 =
         some (emptyRow :: headerRow ::
           (selectedRecs dfC1w "A" 500).map (formatRow (numericCol dfC1w) "Alpha")))) :=
  ⟨rfl, by decide, c1_block_membership dfC1w "A" "Alpha" 500 recC1w rfl (by decide)⟩

/-- Table and targets on which only group 1 yields a block. -/
def dfC2 : Table := ⟨true, [⟨"A", "1", 100, 1, 1, 1, 600⟩]⟩

/-- Three group configurations of which only the first matches anything. -/
def targetsC2 : List GroupSpec := [⟨"A", "A", 500⟩, ⟨"B", "B", 500⟩, ⟨"C", "C", 500⟩]

/-- C2 (code bug): with three groups of which exactly the first yields a block
(N = 1), the loop still appends a separator because the yielded group's
position index 0 is below 2: the separator list is `[4]`, i.e. one separator
directly after the last (only) yielded block, where the claim requires
`max(N−1, 0) = 0` separators. -/
theorem c2_trailing_separator_eval :
    yieldCount dfC2 targetsC2 = 1 ∧
    (master_build dfC2 targetsC2).separator_indices = [4] ∧
    (master_build dfC2 targetsC2).master_rows.length = 5 ∧
    ¬ ((master_build dfC2 targetsC2).separator_indices.length =
        max (yieldCount dfC2 targetsC2 - 1) 0) := by decide

/-- The spec's C3 scenario: 10 records over the two models `A` and `B`;
group 1 (`A`, threshold 300) matches exactly the three records with
differential 500, 400 and 300; groups 2 and 3 (`B`, threshold 9999) match
nothing. -/
def dfC3 : Table :=
  ⟨true, [⟨"A", "1", 100, 1, 1, 1, 500⟩, ⟨"A", "2", 100, 1, 1, 1, 400⟩,
          ⟨"A", "3", 100, 1, 1, 1, 300⟩, ⟨"A", "4", 100, 1, 1, 1, 200⟩,
          ⟨"A", "5", 100, 1, 1, 1, 100⟩, ⟨"B", "6", 100, 1, 1, 1, 0⟩,
          ⟨"B", "7", 100, 1, 1, 1, 0⟩, ⟨"B", "8", 100, 1, 1, 1, 0⟩,
          ⟨"B", "9", 100, 1, 1, 1, 0⟩, ⟨"B", "10", 100, 1, 1, 1, 0⟩]⟩

/-- The three group configurations of the C3 scenario. -/
def targetsC3 : List GroupSpec :=
  [⟨"A", "A", 300⟩, ⟨"B", "B", 9999⟩, ⟨"B", "B", 9999⟩]

/-- C3 (counterexample): in the spec's scenario the assembled grid does not
have 5 rows and 0 separators — it has 7 rows and 1 separator. -/
theorem c3_scenario_counterexample :
    ¬ ((master_build dfC3 targetsC3).master_rows.length = 5 ∧
       (master_build dfC3 targetsC3).separator_indices.length = 0) := by decide

/-- C3 (amended): in the scenario (model column present, 10 records over 2
distinct models, group 1 matching exactly 3 records, groups 2 and 3 matching
none) the grid has exactly 7 rows: the initial blank row at index 0, group 1's
title band at index 1, its column header at index 2, its 3 data rows at
indices 3–5, and one trailing separator row at index 6. -/
theorem c3_scenario_amended (df : Table) (g1 g2 g3 : GroupSpec)
    (hcol : df.hasModelCol = true)
    (_h10 : df.recs.length = 10)
    (_hmodels : (allMachines df).length = 2)
    (h1 : (filteredRecs df g1.csv_n g1.thresh).length = 3)
    (h2 : get_machine_rows df g2.csv_n g2.disp_n g2.thresh = none)
    (h3 : get_machine_rows df g3.csv_n g3.disp_n g3.thresh = none) :
    (master_build df [g1, g2, g3]).master_rows.length = 7 ∧
    (master_build df [g1, g2, g3]).headline_indices = [1] ∧
    (master_build df [g1, g2, g3]).header_indices = [2] ∧
    (master_build df [g1, g2, g3]).separator_indices = [6] ∧
    (master_build df [g1, g2, g3]).machine_info = [g1.disp_n] := by
  have hsel : (selectedRecs df g1.csv_n g1.thresh).length = 3 := by
    rw [selectedRecs, sortValues_length]; exact h1
  have hne : selectedRecs df g1.csv_n g1.thresh ≠ [] := by
    intro he; rw [he] at hsel; simp at hsel
  have hget1 := @get_machine_rows_eq_some df g1.csv_n g1.disp_n g1.thresh hcol hne
  have hstep : master_build df [g1, g2, g3] =
      buildLoop df 1 [g2, g3] (buildStep df initState (0, g1)) := rfl
  have hnone : ∀ g ∈ [g2, g3], get_machine_rows df g.csv_n g.disp_n g.thresh = none := by
    intro g hg
    rcases List.mem_cons.mp hg with rfl | hg'
    · exact h2
    · rcases List.mem_cons.mp hg' with rfl | hg''
      · exact h3
      · simp at hg''
  rw [hstep, buildLoop_none [g2, g3] 1 _ hnone,
    buildStep_some_sep hget1 (by omega)]
  refine ⟨?_, ?_, ?_, ?_, ?_⟩ <;>
    simp [initState, List.length_append, List.length_map, hsel]

/-- C3 (amended) witness: the concrete scenario table realizes all the
hypotheses, and its grid has the stated 7-row shape. -/
theorem c3_scenario_amended_witness :
    dfC3.hasModelCol = true ∧
    dfC3.recs.length = 10 ∧
    (allMachines dfC3).length = 2 ∧
    (filteredRecs dfC3 "A" 300).length = 3 ∧
    get_machine_rows dfC3 "B" "B" 9999 = none ∧
    ((master_build dfC3 targetsC3).master_rows.length = 7 ∧
     (master_build dfC3 targetsC3).headline_indices = [1] ∧
     (master_build dfC3 targetsC3).header_indices = [2] ∧
     (master_build dfC3 targetsC3).separator_indices = [6] ∧
     (master_build dfC3 targetsC3).machine_info = ["A"]) :=
  ⟨rfl, by decide, by decide, by decide, by decide,
   c3_scenario_amended dfC3 ⟨"A", "A", 300⟩ ⟨"B", "B", 9999⟩ ⟨"B", "B", 9999⟩
     rfl (by decide) (by decide) (by decide) (by decide) (by decide)⟩

/-- A table and three group configurations none of which matches anything. -/
def dfC4 : Table := ⟨true, [⟨"A", "1", 100, 1, 1, 1, 0⟩]⟩

/-- Three group configurations that all yield nothing over `dfC4`. -/
def targetsC4 : List GroupSpec :=
  [⟨"A", "A", 500⟩, ⟨"A", "A", 500⟩, ⟨"A", "A", 500⟩]

/-- C4 (counterexample): when every group yields nothing the grid is not
empty — it still holds the initial blank row, so its length is 1, refuting
"the assembled Grid contains zero rows" (rendering is indeed skipped). -/
theorem c4_empty_build_counterexample :
    (∀ g ∈ targetsC4, get_machine_rows dfC4 g.csv_n g.disp_n g.thresh = none) ∧
    ¬ ((master_build dfC4 targetsC4).master_rows.length = 0 ∧
       renderInvoked (master_build dfC4 targetsC4) = false) := by decide

/-- C4 (amended): when every supplied group yields no block, the grid consists
of exactly the single initial blank row (so it is never empty), and the
rendering guard `len(master_rows) > 1` fails, so the rendering collaborator is
not invoked and no partial output is produced. -/
theorem c4_empty_build_amended (df : Table) (targets : List GroupSpec)
    (h : ∀ g ∈ targets, get_machine_rows df g.csv_n g.disp_n g.thresh = none) :
    master_build df targets = initState ∧
    (master_build df targets).master_rows = [emptyRow] ∧
    renderInvoked (master_build df targets) = false := by
  have he : master_build df targets = initState := buildLoop_none targets 0 initState h
  refine ⟨he, ?_, ?_⟩ <;> rw [he] <;> rfl

/-- C4 (amended) witness: on the concrete all-empty build the grid is exactly
the initial blank row and rendering is not invoked. -/
theorem c4_empty_build_amended_witness :
    (∀ g ∈ targetsC4, get_machine_rows dfC4 g.csv_n g.disp_n g.thresh = none) ∧
    (master_build dfC4 targetsC4 = initState ∧
     (master_build dfC4 targetsC4).master_rows = [emptyRow] ∧
     renderInvoked (master_build dfC4 targetsC4) = false) :=
  ⟨by decide, c4_empty_build_amended dfC4 targetsC4 (by decide)⟩

/-- C6: the loader tries cp932 first; when that fails it retries the rewound
stream as utf-8, and a stream invalid under cp932 but valid under utf-8 loads
with exactly the utf-8 parse's records (identical to a native utf-8 supply);
when both fail the result is the terminal `DecodeError`, with no further
fallback. -/
theorem c6_encoding_fallback (rc : Encoding → ByteStream → Option Table)
    (bs : ByteStream) (df : Table)
    (hA : rc Encoding.cp932 bs = none) :
    (rc Encoding.utf8 bs = some df → load rc bs = checkSchema df) ∧
    (rc Encoding.utf8 bs = some df → df.hasModelCol = true →
      load rc bs = Except.ok (df, allMachines df)) ∧
    (rc Encoding.utf8 bs = none → load rc bs = Except.error LoadError.DecodeError) := by
  refine ⟨fun hB => ?_, fun hB hcol => ?_, fun hB => ?_⟩
  · simp [load, hA, hB]
  · simp [load, hA, hB, checkSchema, hcol]
  · simp [load, hA, hB]

/-- Parsed table for the C6 witness. -/
def dfC6 : Table := ⟨true, [⟨"A", "1", 10, 1, 1, 1, 100⟩]⟩

/-- Byte stream for the C6 witness. -/
def bsC6 : ByteStream := []

/-- A reader that fails under cp932 and succeeds under utf-8. -/
def rcC6 : Encoding → ByteStream → Option Table := fun e _ =>
  match e with
  | Encoding.cp932 => none
  | Encoding.utf8 => some dfC6

/-- C6 witness: the cp932-invalid, utf-8-valid stream loads to exactly the
utf-8 parse's table and machine list. -/
theorem c6_encoding_fallback_witness :
    rcC6 Encoding.cp932 bsC6 = none ∧
    rcC6 Encoding.utf8 bsC6 = some dfC6 ∧
    dfC6.hasModelCol = true ∧
    load rcC6 bsC6 = Except.ok (dfC6, allMachines dfC6) :=
  ⟨rfl, rfl, rfl, (c6_encoding_fallback rcC6 bsC6 dfC6 rfl).2.1 rfl rfl⟩

/-- C7: after a successful decode under either encoding, a table lacking the
model-identifier column fails with `SchemaError`, which is distinct from
`DecodeError`, so callers can tell an unparseable stream from a parseable
table of the wrong shape. -/
theorem c7_schema_error (rc : Encoding → ByteStream → Option Table)
    (bs : ByteStream) (df : Table) (hno : df.hasModelCol = false) :
    (rc Encoding.cp932 bs = some df → load rc bs = Except.error LoadError.SchemaError) ∧
    (rc Encoding.cp932 bs = none → rc Encoding.utf8 bs = some df →
      load rc bs = Except.error LoadError.SchemaError) ∧
    LoadError.SchemaError ≠ LoadError.DecodeError := by
  refine ⟨fun hA => ?_, fun hA hB => ?_, by decide⟩
  · simp [load, hA, checkSchema, hno]
  · simp [load, hA, hB, checkSchema, hno]

/-- Parsed-but-columnless table for the C7 witness. -/
def dfC7 : Table := ⟨false, [⟨"A", "1", 10, 1, 1, 1, 100⟩]⟩

/-- Byte stream for the C7 witness. -/
def bsC7 : ByteStream := []

/-- A reader that decodes successfully to a table lacking the model column. -/
def rcC7 : Encoding → ByteStream → Option Table := fun _ _ => some dfC7

/-- C7 witness: decoding succeeds, the model column is absent, and the load
fails with `SchemaError`, distinct from `DecodeError`. -/
theorem c7_schema_error_witness :
    dfC7.hasModelCol = false ∧
    rcC7 Encoding.cp932 bsC7 = some dfC7 ∧
    load rcC7 bsC7 = Except.error LoadError.SchemaError ∧
    LoadError.SchemaError ≠ LoadError.DecodeError :=
  ⟨rfl, rfl, (c7_schema_error rcC7 bsC7 dfC7 rfl).1 rfl,
   (c7_schema_error rcC7 bsC7 dfC7 rfl).2.2⟩

/-- C8: every data row of a block carries the play count formatted with
thousands separators plus the suffix `G` in cell 2 and the differential as
`+`, thousands-separated digits and the suffix `枚` in cell 6; in particular
9876 renders as `9,876G` and 1234 as `+1,234枚`. -/
theorem c8_formatting (df : Table) (csv_name disp : String) (threshold : Int)
    (rows : List (List String))
    (h : get_machine_rows df csv_name disp threshold = some rows) :
    (∀ row ∈ rows.drop 2, ∃ r, r ∈ selectedRecs df csv_name threshold ∧
        row = formatRow (numericCol df) disp r ∧
        row.get? 2 = some (commaInt r.g ++ "G") ∧
        row.get? 6 = some ("+" ++ commaInt r.sa ++ "枚")) ∧
    commaInt 9876 ++ "G" = "9,876G" ∧
    "+" ++ commaInt 1234 ++ "枚" = "+1,234枚" := by
  refine ⟨?_, by decide, by decide⟩
  have hs := get_machine_rows_some_shape h
  subst hs
  intro row hrow
  obtain ⟨r, hr, hfr⟩ := List.mem_map.mp hrow
  subst hfr
  exact ⟨r, hr, rfl, rfl, rfl⟩

/-- Table for the C8 witness. -/
def dfC8 : Table := ⟨true, [⟨"A", "1", 9876, 1, 2, 3, 1234⟩]⟩

/-- The block `dfC8` yields for model `A` at threshold 500. -/
def rowsC8 : List (List String) :=
  [emptyRow, headerRow, ["1", "Alpha", "9,876G", "1", "2", "3", "+1,234枚"]]

/-- C8 witness: the concrete block's data row shows `9,876G` and `+1,234枚`. -/
theorem c8_formatting_witness :
    get_machine_rows dfC8 "A" "Alpha" 500 = some rowsC8 ∧
    ((∀ row ∈ rowsC8.drop 2, ∃ r, r ∈ selectedRecs dfC8 "A" 500 ∧
        row = formatRow (numericCol dfC8) "Alpha" r ∧
        row.get? 2 = some (commaInt r.g ++ "G") ∧
        row.get? 6 = some ("+" ++ commaInt r.sa ++ "枚")) ∧
     commaInt 9876 ++ "G" = "9,876G" ∧
     "+" ++ commaInt 1234 ++ "枚" = "+1,234枚") :=
  ⟨by decide, c8_formatting dfC8 "A" "Alpha" 500 rowsC8 (by decide)⟩

/-- C9: whenever some group yields a block, the grid begins with the blank
7-cell row at index 0 (`first_sep_idx`), which belongs to none of the
title-band, column-header or separator index lists, and every title-band
index — in particular the first yielded group's — is at least 1. -/
theorem c9_leading_blank_row (df : Table) (targets : List GroupSpec)
    (_h : ∃ g ∈ targets, (get_machine_rows df g.csv_n g.disp_n g.thresh).isSome = true) :
    emptyRow.length = 7 ∧
    (master_build df targets).master_rows.head? = some emptyRow ∧
    first_sep_idx = 0 ∧
    first_sep_idx ∉ (master_build df targets).headline_indices ∧
    first_sep_idx ∉ (master_build df targets).header_indices ∧
    first_sep_idx ∉ (master_build df targets).separator_indices ∧
    (∀ i ∈ (master_build df targets).headline_indices, 1 ≤ i) := by
  obtain ⟨⟨rest, hrest⟩, h1, h2, h3⟩ := invState_master_build df targets
  refine ⟨rfl, by rw [hrest]; rfl, rfl, ?_, ?_, ?_, h1⟩
  · intro hc
    have := h1 _ hc
    simp [first_sep_idx] at this
  · intro hc
    have := h2 _ hc
    simp [first_sep_idx] at this
  · intro hc
    have := h3 _ hc
    simp [first_sep_idx] at this

/-- Table for the C9 witness. -/
def dfC9 : Table := ⟨true, [⟨"A", "1", 10, 1, 1, 1, 600⟩]⟩

/-- A single group configuration that yields a block over `dfC9`. -/
def targetsC9 : List GroupSpec := [⟨"A", "A", 500⟩]

/-- C9 witness: a build with one yielded block keeps the blank row at index 0
outside every role index list. -/
theorem c9_leading_blank_row_witness :
    (∃ g ∈ targetsC9, (get_machine_rows dfC9 g.csv_n g.disp_n g.thresh).isSome = true) ∧
    (emptyRow.length = 7 ∧
     (master_build dfC9 targetsC9).master_rows.head? = some emptyRow ∧
     first_sep_idx = 0 ∧
     first_sep_idx ∉ (master_build dfC9 targetsC9).headline_indices ∧
     first_sep_idx ∉ (master_build dfC9 targetsC9).header_indices ∧
     first_sep_idx ∉ (master_build dfC9 targetsC9).separator_indices ∧
     (∀ i ∈ (master_build dfC9 targetsC9).headline_indices, 1 ≤ i)) :=
  ⟨by decide, c9_leading_blank_row dfC9 targetsC9 (by decide)⟩

/-- C10: the net-payout cell of every kept record's data row is the literal
`+` followed by the formatted differential, whatever its sign; in particular a
differential of −100 renders as `+-100枚`. -/
theorem c10_plus_prefix (df : Table) (csv_name disp : String) (threshold : Int)
    (r : Record) (_hr : r ∈ selectedRecs df csv_name threshold) :
    (∃ t, (formatRow (numericCol df) disp r).get? 6 = some ("+" ++ t)) ∧
    "+" ++ commaInt (-100) ++ "枚" = "+-100枚" := by
  refine ⟨⟨commaInt r.sa ++ "枚", ?_⟩, by decide⟩
  show some ("+" ++ commaInt r.sa ++ "枚") = some ("+" ++ (commaInt r.sa ++ "枚"))
  rw [String.append_assoc]

/-- Table for the C10 witness: a negative threshold admits a record with a
negative differential. -/
def dfC10 : Table := ⟨true, [⟨"A", "1", 50, 1, 1, 1, -100⟩]⟩

/-- The qualifying negative-differential record of `dfC10`. -/
def recC10 : Record := ⟨"A", "1", 50, 1, 1, 1, -100⟩

/-- C10 witness: with threshold −500 the record with differential −100
qualifies and its net-payout cell is the literal `+-100枚`. -/
theorem c10_plus_prefix_witness :
    recC10 ∈ selectedRecs dfC10 "A" (-500) ∧
    ((∃ t, (formatRow (numericCol dfC10) "A" recC10).get? 6 = some ("+" ++ t)) ∧
     "+" ++ commaInt (-100) ++ "枚" = "+-100枚") ∧
    (formatRow (numericCol dfC10) "A" recC10).get? 6 = some "+-100枚" :=
  ⟨by decide, c10_plus_prefix dfC10 "A" "A" (-500) recC10 (by decide), by decide⟩

end App2
